import Mathlib

/-!
Shallow embedding of the skeleton / overlay loading-decoration engine
(`src/skeleton.ts`, plus the earlier anchor/float revision and the overlay
module) for checking the natural-language specification.

Geometry is modelled over `ℚ` (exact rational arithmetic standing for the
JS doubles), DOM rectangles as `Rect`, dataset attributes as `Option String`
fields (an absent attribute is `none`), and the CSS participation selector
as a boolean predicate over an element together with the list of its strict
ancestors below the query root.
-/

/-- A DOMRect: stored geometry `x`, `y`, `width`, `height`; the accessors
`top`/`left`/`right`/`bottom` follow the DOMRect spec (`left = min(x, x+w)`
and so on, which coincides with `x` etc. for non-negative sizes). -/
structure Rect where
  x : ℚ
  y : ℚ
  width : ℚ
  height : ℚ
deriving DecidableEq, Repr

def Rect.left (r : Rect) : ℚ := min r.x (r.x + r.width)

def Rect.right (r : Rect) : ℚ := max r.x (r.x + r.width)

def Rect.top (r : Rect) : ℚ := min r.y (r.y + r.height)

def Rect.bottom (r : Rect) : ℚ := max r.y (r.y + r.height)

/-- JavaScript `Math.round`: half-way cases round towards `+∞`. -/
def jsRound (q : ℚ) : ℤ := ⌊q + 1 / 2⌋

namespace Skeleton

/-- Skeleton `dataset` options (`SkeletonOptions` in `src/skeleton.ts`).
Every field is optional; an absent data attribute is `none`.  The stray
`skTT` key that the `configuration.defaults` of the module carries is kept as a
field so the defaults record can be translated verbatim. -/
structure SkeletonOptions where
  skId : Option String := none
  sk : Option String := none
  skT : Option String := none
  skR : Option String := none
  skO : Option String := none
  skSx : Option String := none
  skSy : Option String := none
  skTx : Option String := none
  skTy : Option String := none
  skW : Option String := none
  skH : Option String := none
  skZ : Option String := none
  skTT : Option String := none
deriving DecidableEq, Repr

/-- The option fields, used to state field-by-field merge properties. -/
inductive Field where
  | skId | sk | skT | skR | skO | skSx | skSy | skTx | skTy | skW | skH | skZ | skTT
deriving DecidableEq, Repr

def getField (o : SkeletonOptions) : Field → Option String
  | .skId => o.skId
  | .sk => o.sk
  | .skT => o.skT
  | .skR => o.skR
  | .skO => o.skO
  | .skSx => o.skSx
  | .skSy => o.skSy
  | .skTx => o.skTx
  | .skTy => o.skTy
  | .skW => o.skW
  | .skH => o.skH
  | .skZ => o.skZ
  | .skTT => o.skTT

/-- JS object spread `{ ...a, ...b }` over two option records whose absent
keys are `none`: each field takes the value of `b` when present, else that of `a`. -/
def mergeOptions (a b : SkeletonOptions) : SkeletonOptions where
  skId := b.skId.orElse fun _ => a.skId
  sk := b.sk.orElse fun _ => a.sk
  skT := b.skT.orElse fun _ => a.skT
  skR := b.skR.orElse fun _ => a.skR
  skO := b.skO.orElse fun _ => a.skO
  skSx := b.skSx.orElse fun _ => a.skSx
  skSy := b.skSy.orElse fun _ => a.skSy
  skTx := b.skTx.orElse fun _ => a.skTx
  skTy := b.skTy.orElse fun _ => a.skTy
  skW := b.skW.orElse fun _ => a.skW
  skH := b.skH.orElse fun _ => a.skH
  skZ := b.skZ.orElse fun _ => a.skZ
  skTT := b.skTT.orElse fun _ => a.skTT

/-- `configuration.defaults` of `src/skeleton.ts`. -/
def defaults : SkeletonOptions where
  skR := some "m"
  skTT := some "trim"
  skO := some "center"
  skSx := some "1"
  skSy := some "1"
  skTx := some "0px"
  skTy := some "0px"

/-- `configuration.elements` of `src/skeleton.ts`: per-tag default options. -/
def configurationElements : List (String × SkeletonOptions) :=
  [("img", { skT := some "round" }),
   ("picture", { skT := some "round" }),
   ("video", { skT := some "round" }),
   ("svg", { skT := some "round" })]

/-- `configuration.elements[tag]` lookup; a missing tag contributes the empty
record (spreading `undefined` adds nothing). -/
def elementsConfig (tag : String) : SkeletonOptions :=
  ((configurationElements.find? fun p => p.1 = tag).map Prod.snd).getD {}

/-- Tags whose per-tag default is `skT === "none"` (`implicitHide`). -/
def implicitHide : List String :=
  (configurationElements.filter fun p => p.2.skT = some "none").map Prod.fst

/-- Tags whose per-tag default sets `skT` to something other than `"none"`
(`implicitShow`). -/
def implicitShow : List String :=
  (configurationElements.filter fun p => p.2.skT.isSome ∧ p.2.skT ≠ some "none").map Prod.fst

/-- A text node together with the measurements the engine takes of it: the
bounding rect of its first character and of its last character, obtained
from the range-measurement primitive. -/
structure TextNode where
  len : Nat
  startRect : Rect
  endRect : Rect
deriving DecidableEq, Repr

/-- An element as the engine observes it: tag name, dataset attributes,
bounding rect, child counts (`childNodes.length` vs `childElementCount`),
the measured text nodes among its child nodes, and the computed-style
line height (`parseFloat(getComputedStyle(element).lineHeight)`). -/
structure Elem where
  tag : String
  dataset : SkeletonOptions := {}
  rect : Rect
  childNodesLen : Nat := 0
  childElemCount : Nat := 0
  textNodes : List TextNode := []
  lineHeight : ℚ := 0
deriving DecidableEq, Repr

/-- Per-candidate option resolution performed by `inject`:
`{ ...defaults, ...elements[element.localName], ...element.dataset }`. -/
def resolveOptions (e : Elem) : SkeletonOptions :=
  mergeOptions (mergeOptions defaults (elementsConfig e.tag)) e.dataset

/-- `element.localName.includes("-")`: custom/compound element check (the
tag name contains a hyphen). -/
def isCustomElement (e : Elem) : Bool := e.tag.data.contains '-'

/-- `element.childNodes.length > element.childElementCount`. -/
def probablyText (e : Elem) : Bool := e.childNodesLen > e.childElemCount

/-- `const top = startRect.top - rect.top - (lineHeight - startRect.height) / 2`. -/
def lineTop (e : Elem) (tn : TextNode) : ℚ :=
  tn.startRect.top - e.rect.top - (e.lineHeight - tn.startRect.height) / 2

/-- `const left = startRect.left - rect.left`. -/
def lineLeft (e : Elem) (tn : TextNode) : ℚ := tn.startRect.left - e.rect.left

/-- `const right = rect.right - endRect.right`. -/
def lineRight (e : Elem) (tn : TextNode) : ℚ := e.rect.right - tn.endRect.right

/-- `const lines = Math.round((endRect.bottom - startRect.top) / lineHeight)`. -/
def lineCount (e : Elem) (tn : TextNode) : ℤ :=
  jsRound ((tn.endRect.bottom - tn.startRect.top) / e.lineHeight)

/-- The per-line rectangle built by `computePositions` for line index `line`
of a text node (the `generate` callback). -/
def lineRect (e : Elem) (tn : TextNode) (lines : ℤ) (line : Nat) : Rect where
  x := lineLeft e tn * (if line = 0 then 1 else 0) + 1 / 10
  y := lineTop e tn + line * e.lineHeight
  width := e.rect.width - lineLeft e tn * (if line = 0 then 1 else 0)
    - lineRight e tn * (if (line : ℤ) = lines - 1 then 1 else 0)
  height := e.lineHeight

/-- Rectangles that one non-empty text node contributes: the `generate(lines, ...)`
loop runs `max lines 0` times (a JS `for` loop with a negative bound runs
zero times). -/
def textNodeRects (e : Elem) (tn : TextNode) : List Rect :=
  (List.range (lineCount e tn).toNat).map (lineRect e tn (lineCount e tn))

/-- `computePositions` of `src/skeleton.ts`: placeholder rectangles for one
element, or `none` when there is nothing to decorate (the bare
`return`). -/
def computePositions (e : Elem) (options : SkeletonOptions) : Option (List Rect) :=
  if e.rect.height = 0 ∨ e.rect.width = 0 then none
  else
    let skT := options.skT
    if skT = none ∧ ¬isCustomElement e ∧ ¬probablyText e then none
    else if (skT.isSome ∧ skT ≠ some "text") ∨ (skT = some "text" ∧ ¬probablyText e) ∨
        isCustomElement e then
      some [⟨0, 0, e.rect.width, e.rect.height⟩]
    else
      some ((e.textNodes.filter fun tn => tn.len ≠ 0).flatMap (textNodeRects e))

/-!
The participation selector.  `buildSelector` produces
`:not(:is(c1, ..., c6))`, so an element is a candidate iff it matches none
of the six exclusion conditions.  For an element obtained through
`element.querySelectorAll(selector)` the `:scope` descendant combinator
ranges over the strict ancestors of the element strictly below the query root;
`excluded` takes that ancestor list (outermost first, root itself omitted)
as input.  The root element itself is tested with `element.matches(selector)`,
where no `:scope <compound>` condition can match the scope element itself,
so the root always matches the selector.
-/

/-- One exclusion condition set of `buildSelector`, evaluated on an element
`e` with strict ancestors `anc` (all strictly below the query root):
1. `:scope [data-sk-id]:not([data-sk-id="id"])`
2. `:scope [data-sk-id]:not([data-sk-id="id"]) *`
3. `:scope [data-sk-t="none"]`
4. `:scope [data-sk-t]:not([data-sk-t="none"]) :not([data-sk-t])`
5. `:scope tag:not([data-sk-t])` for each `tag` in `implicitNone`
6. `:scope tag:not([data-sk-t]) :not([data-sk-t])` for each `tag` in `implicitType`. -/
def excluded (id : String) (implicitNone implicitType : List String)
    (anc : List Elem) (e : Elem) : Bool :=
  (match e.dataset.skId with | some v => v ≠ id | none => false)
  || anc.any (fun a => match a.dataset.skId with | some v => v ≠ id | none => false)
  || e.dataset.skT = some "none"
  || (e.dataset.skT = none && anc.any fun a => a.dataset.skT.isSome && a.dataset.skT ≠ some "none")
  || (implicitNone.contains e.tag && e.dataset.skT = none)
  || (e.dataset.skT = none && anc.any fun a => implicitType.contains a.tag && a.dataset.skT = none)

/-- The candidate list built by `inject`:
`[...[element].filter(e => e.matches(selector)), ...element.querySelectorAll(selector)]`.
The root always matches (see above).  `descendants` is the document-order
listing that `querySelectorAll` traverses: every strict descendant of the
root, paired with its strict ancestors below the root (outermost first);
a descendant is kept iff it matches none of the exclusion conditions. -/
def candidatesOf (id : String) (implicitNone implicitType : List String)
    (root : Elem) (descendants : List (List Elem × Elem)) : List Elem :=
  root ::
    (descendants.filter fun p => ¬excluded id implicitNone implicitType p.1 p.2).map Prod.snd

/-- The materialized decoration set (the `skeletonElements` map) built by
`inject` from a candidate list: a candidate whose `computePositions` result
is missing or empty is skipped (`if (!positions?.length) return`), otherwise
it is recorded with its positions. -/
def materialized (cands : List Elem) : List (Elem × List Rect) :=
  cands.filterMap fun e =>
    match computePositions e (resolveOptions e) with
    | some ps => if ps.isEmpty then none else some (e, ps)
    | none => none

/-- The `radii` border-radius table, keyed by decoration kind or roundness
class; an unknown key yields `none` (`radii[k]` is `undefined`). -/
def radii (k : String) : Option String :=
  if k = "none" then some "0px"
  else if k = "hide" then some "0px"
  else if k = "rect" then some "0px"
  else if k = "pill" then some "1000px"
  else if k = "round" then some "8px"
  else if k = "text" then some "0.4lh"
  else if k = "xs" then some "2px"
  else if k = "s" then some "4px"
  else if k = "m" then some "8px"
  else if k = "l" then some "12px"
  else if k = "xl" then some "16px"
  else none

/-- The visual node `createSkeleton` builds: the `data-sk-t` dataset entry
plus the inline style properties it assigns.  Styles are strings;
`inert` is the boolean debug flag. -/
structure SkeletonNode where
  datasetSkT : Option String := none
  background : String := ""
  position : String := ""
  left : String := ""
  top : String := ""
  width : String := ""
  height : String := ""
  zIndex : String := ""
  scale : String := ""
  transformOrigin : String := ""
  borderRadius : String := ""
  visibility : String := ""
  inert : Bool := false
  opacity : String := ""
  outline : String := ""
deriving DecidableEq, Repr

/-- `configuration.factory`: a fresh node with only the background set. -/
def factoryNode : SkeletonNode := { background := "#DCE2E5" }

/-- Assigning an optional string to a CSS style property: assigning
`undefined` (an invalid value) leaves the property unchanged. -/
def setStyleOpt (cur : String) (v : Option String) : String := v.getD cur

/-- `const { skT: skM = skeletonRect.left > 0 ? "text" : "round" } = options`:
the decoration kind, inferred from geometry when unset. -/
def inferredKind (options : SkeletonOptions) (skeletonRect : Rect) : String :=
  options.skT.getD (if skeletonRect.left > 0 then "text" else "round")

/-- `const skSy = options.skSy !== "1" ? options.skSy : skM === "text" ? "0.5" : "1"`:
the Y-scale actually applied. -/
def appliedSkSy (options : SkeletonOptions) (skM : String) : Option String :=
  if options.skSy ≠ some "1" then options.skSy
  else if skM = "text" then some "0.5" else some "1"

/-- `createSkeleton` of `src/skeleton.ts`: builds the decoration node and
assigns its style properties in source order (in particular `zIndex` is
assigned `options.skZ` and later unconditionally reassigned `"1"`).
Numeric-to-string formatting of rational offsets is abstracted by
`toString`. -/
def createSkeleton (options : SkeletonOptions)
    (skeletonRect elementRect containerRect : Rect) (debug : Bool) : SkeletonNode :=
  let skM := inferredKind options skeletonRect
  let skSy := appliedSkSy options skM
  let skW := options.skW.getD (toString skeletonRect.width ++ "px")
  let skH := options.skH.getD (toString skeletonRect.height ++ "px")
  let s := factoryNode
  let s := { s with datasetSkT := some "none" }
  let s := { s with position := "absolute" }
  let s := { s with left := "calc(" ++ toString (skeletonRect.x + elementRect.x - containerRect.x)
    ++ "px + " ++ options.skTx.getD "undefined" ++ ")" }
  let s := { s with top := "calc(" ++ toString (skeletonRect.y + elementRect.y - containerRect.y)
    ++ "px + " ++ options.skTy.getD "undefined" ++ ")" }
  let s := { s with width := skW }
  let s := { s with height := skH }
  let s := { s with zIndex := setStyleOpt s.zIndex options.skZ }
  let s := { s with scale := options.skSx.getD "undefined" ++ " " ++ skSy.getD "undefined" }
  let s := { s with transformOrigin := setStyleOpt s.transformOrigin options.skO }
  let s := { s with zIndex := "1" }
  let radiiKey := if skM = "round" then options.skR else some skM
  let s := { s with borderRadius := setStyleOpt s.borderRadius (radiiKey.bind radii) }
  let s := { s with visibility := "visible" }
  let debugOutline := "1px " ++ (if skM = "text" then "dashed" else "solid") ++ " red"
  if debug then { s with inert := true, opacity := "0.5", outline := debugOutline }
  else s

/-!
Lifecycle state for the teardown of `injectSkeleton`.  Elements and decoration
nodes are identified by `Nat` ids; the DOM-visible state is the inline
styles of each element plus the set of decoration nodes currently attached,
and the engine-internal state is the `skeletonElements` map (saved styles
plus created skeletons per entry) and the connection flags of the three
watchers (`skeletonObserver`, `enabledObserver`, `removedObserver`).
-/

/-- Inline styles of one element that the engine touches. -/
@[ext]
structure Styles where
  position : String := ""
  opacity : String := ""
  visibility : String := ""
deriving DecidableEq, Repr

/-- One `skeletonElements` map entry: saved pre-decoration `opacity` and
`visibility`, and the skeleton nodes created for the element. -/
structure SkEntry where
  opacity : String := ""
  visibility : String := ""
  skeletons : List Nat := []
deriving DecidableEq, Repr

/-- The engine-visible world state. -/
@[ext]
structure EngineState where
  styles : Nat → Styles
  attached : List Nat
  skeletonElements : List (Nat × SkEntry)
  skeletonObserverConnected : Bool
  enabledObserverConnected : Bool
  removedObserverConnected : Bool

/-- `element.style.position = v` for element `k`. -/
def writePosition (f : Nat → Styles) (k : Nat) (v : String) : Nat → Styles :=
  fun n => if n = k then { f n with position := v } else f n

/-- `el.style.opacity = o; el.style.visibility = vis` for element `k`. -/
def writeOpacityVisibility (f : Nat → Styles) (k : Nat) (o vis : String) : Nat → Styles :=
  fun n => if n = k then { f n with opacity := o, visibility := vis } else f n

/-- Processing of one `skeletonElements` entry inside the `forEach` of `eject`:
restore the saved `opacity` and `visibility` of the element and remove its
skeleton nodes from the DOM. -/
def restoreEntry (s : EngineState) (p : Nat × SkEntry) : EngineState :=
  { s with
    styles := writeOpacityVisibility s.styles p.1 p.2.opacity p.2.visibility
    attached := s.attached.filter fun n => n ∉ p.2.skeletons }

/-- `eject` of `injectSkeleton`: restore the captured root `position`,
disconnect the skeleton resize observer, restore every tracked element and
remove its skeletons, then clear the map.  `rootId` is the root element and
`savedPosition` the computed position captured when `injectSkeleton` ran. -/
def eject (rootId : Nat) (savedPosition : String) (s : EngineState) : EngineState :=
  let s1 := { s with styles := writePosition s.styles rootId savedPosition }
  let s2 := { s1 with skeletonObserverConnected := false }
  let s3 := s.skeletonElements.foldl restoreEntry s2
  { s3 with skeletonElements := [] }

/-- The cleanup function returned by `injectSkeleton`: disconnect the
enablement and removal observers, then `eject()`. -/
def cleanup (rootId : Nat) (savedPosition : String) (s : EngineState) : EngineState :=
  eject rootId savedPosition
    { s with enabledObserverConnected := false, removedObserverConnected := false }

end Skeleton

namespace Skeleton2

/-!
The earlier anchor/float revision of the skeleton module (the unnamed
source file defining `computeDecorations` and `createDecoration`).  Here
the decoration kind lives in the `sk` dataset key and `skT` is the `text`
match-precision mode (`"trim" | "loose"`, defaulting to `"trim"`).
-/

/-- `SkeletonOptions` of the anchor/float revision. -/
structure SkeletonOptions where
  sk : Option String := none
  skR : Option String := none
  skT : Option String := none
  skO : Option String := none
  skSx : Option String := none
  skSy : Option String := none
  skTx : Option String := none
  skTy : Option String := none
  skW : Option String := none
  skH : Option String := none
deriving DecidableEq, Repr

/-- `{ ...a, ...b }` for the options of this revision. -/
def mergeOptions (a b : SkeletonOptions) : SkeletonOptions where
  sk := b.sk.orElse fun _ => a.sk
  skR := b.skR.orElse fun _ => a.skR
  skT := b.skT.orElse fun _ => a.skT
  skO := b.skO.orElse fun _ => a.skO
  skSx := b.skSx.orElse fun _ => a.skSx
  skSy := b.skSy.orElse fun _ => a.skSy
  skTx := b.skTx.orElse fun _ => a.skTx
  skTy := b.skTy.orElse fun _ => a.skTy
  skW := b.skW.orElse fun _ => a.skW
  skH := b.skH.orElse fun _ => a.skH

/-- `configuration.defaults` of the anchor/float revision. -/
def defaults : SkeletonOptions where
  skR := some "m"
  skT := some "trim"
  skO := some "center"
  skSx := some "1"
  skSy := some "1"
  skTx := some "0"
  skTy := some "0"

/-- `configuration.elements` of the anchor/float revision. -/
def configurationElements : List (String × SkeletonOptions) :=
  [("img", { sk := some "round" }),
   ("picture", { sk := some "round" }),
   ("video", { sk := some "round" }),
   ("svg", { sk := some "round" })]

/-- `configuration.elements[tag]` lookup for this revision. -/
def elementsConfig (tag : String) : SkeletonOptions :=
  ((configurationElements.find? fun p => p.1 = tag).map Prod.snd).getD {}

/-- An element as `computeDecorations` observes it (same shape as in the
current revision, with the dataset options of this revision). -/
structure Elem where
  tag : String
  dataset : SkeletonOptions := {}
  rect : Rect
  childNodesLen : Nat := 0
  childElemCount : Nat := 0
  textNodes : List Skeleton.TextNode := []
  lineHeight : ℚ := 0
deriving DecidableEq, Repr

/-- Per-candidate option resolution of the anchor/float revision:
`{ ...configuration.defaults, ...configuration.elements[element.localName], ...dataset }`. -/
def resolveOptions (e : Elem) : SkeletonOptions :=
  mergeOptions (mergeOptions defaults (elementsConfig e.tag)) e.dataset

def isCustomElement (e : Elem) : Bool := e.tag.data.contains '-'

def probablyText (e : Elem) : Bool := e.childNodesLen > e.childElemCount

def lineTop (e : Elem) (tn : Skeleton.TextNode) : ℚ :=
  tn.startRect.top - e.rect.top - (e.lineHeight - tn.startRect.height) / 2

def lineLeft (e : Elem) (tn : Skeleton.TextNode) : ℚ := tn.startRect.left - e.rect.left

def lineRight (e : Elem) (tn : Skeleton.TextNode) : ℚ := e.rect.right - tn.endRect.right

def lineCount (e : Elem) (tn : Skeleton.TextNode) : ℤ :=
  jsRound ((tn.endRect.bottom - tn.startRect.top) / e.lineHeight)

/-- The per-line rectangle of `computeDecorations` (the `[...Array(lines)].map`
callback): every line carries the fixed `0.1` left inset, the first line is
additionally inset by `left`, and the width is trimmed by the leading and
trailing gaps only under `skT === "trim"`. -/
def lineRect (e : Elem) (skT : Option String) (tn : Skeleton.TextNode) (lines : ℤ)
    (i : Nat) : Rect where
  x := 1 / 10 + (if i = 0 then 1 else 0) * lineLeft e tn
  y := lineTop e tn + i * e.lineHeight
  width := e.rect.width - (if i = 0 ∧ skT = some "trim" then 1 else 0) * lineLeft e tn
    - (if (i : ℤ) = lines - 1 ∧ skT = some "trim" then 1 else 0) * lineRight e tn
  height := e.lineHeight

/-- Rectangles one non-empty text node contributes in this revision. -/
def textNodeRects (e : Elem) (skT : Option String) (tn : Skeleton.TextNode) : List Rect :=
  (List.range (lineCount e tn).toNat).map (lineRect e skT tn (lineCount e tn))

/-- `computeDecorations` of the anchor/float revision. -/
def computeDecorations (e : Elem) (options : SkeletonOptions) : Option (List Rect) :=
  if e.rect.height = 0 ∨ e.rect.width = 0 then none
  else
    let sk := options.sk
    if sk = none ∧ ¬isCustomElement e ∧ ¬probablyText e then none
    else if (sk.isSome ∧ sk ≠ some "text") ∨ (sk = some "text" ∧ ¬probablyText e) ∨
        isCustomElement e then
      some [⟨0, 0, e.rect.width, e.rect.height⟩]
    else
      some ((e.textNodes.filter fun tn => tn.len ≠ 0).flatMap (textNodeRects e options.skT))

end Skeleton2

namespace Overlay

/-!
The overlay module (second half of `src/skeleton.ts`): the `eject` of
`eject` and the bookkeeping it touches.  Elements and decoration nodes are
identified by `Nat` ids; the state is the `decorations` weak map
(element id to decoration id), the resize-observer subscription set and the
decoration nodes present in the DOM.
-/

/-- An element as `eject` observes it: its id and its `data-ov` attribute. -/
structure OvElem where
  id : Nat
  ov : Option String := none
deriving DecidableEq, Repr

/-- Overlay engine state. -/
structure OverlayState where
  decorations : List (Nat × Nat)
  observed : List Nat
  domDecorations : List Nat
deriving DecidableEq, Repr

/-- `eject` of `injectOverlay`: look up the decoration of the element; if there
is none, or the element currently has `data-ov="true"`, return without
touching anything; otherwise unobserve the element, delete the map entry,
and (after the fade-out animation) remove the decoration node. -/
def eject (s : OverlayState) (e : OvElem) : OverlayState :=
  match (s.decorations.find? fun p => p.1 = e.id).map Prod.snd with
  | none => s
  | some d =>
    if e.ov = some "true" then s
    else
      { decorations := s.decorations.filter fun p => p.1 ≠ e.id
        observed := s.observed.filter fun n => n ≠ e.id
        domDecorations := s.domDecorations.filter fun n => n ≠ d }

end Overlay

/-!
Concrete instances used by counterexamples and witnesses.
-/

/-- A marker-less `img` inside a `data-sk-t="none"` parent. -/
def c1childElem : Skeleton.Elem := { tag := "img", rect := ⟨0, 0, 50, 50⟩ }

def c1parentElem : Skeleton.Elem :=
  { tag := "div", dataset := { skT := some "none" }, rect := ⟨0, 0, 100, 100⟩ }

def c1rootElem : Skeleton.Elem := { tag := "div", rect := ⟨0, 0, 200, 200⟩ }

/-- Document-order strict descendants of `c1rootElem` with their ancestor
chains: the "none"-marked parent, then the `img` child below it. -/
def c1descendants : List (List Skeleton.Elem × Skeleton.Elem) :=
  [([], c1parentElem), ([c1parentElem], c1childElem)]

/-- A single text node measured as three wrapped lines: first character at
the top-left, last character ending at `y = 30` with line height `10`. -/
def c2tn : Skeleton.TextNode :=
  { len := 5, startRect := ⟨0, 0, 20, 10⟩, endRect := ⟨80, 20, 20, 10⟩ }

def c2elem : Skeleton.Elem :=
  { tag := "p", rect := ⟨0, 0, 100, 30⟩, childNodesLen := 1, childElemCount := 0,
    textNodes := [c2tn], lineHeight := 10 }

/-- An `img` element with the explicit marker `data-sk-r="xl"`. -/
def c3elem : Skeleton.Elem :=
  { tag := "img", dataset := { skR := some "xl" }, rect := ⟨0, 0, 10, 10⟩ }

/-- A text node measured as two wrapped lines with a leading gap of `5` and
a trailing gap of `5` (anchor/float revision element below). -/
def c4tn : Skeleton.TextNode :=
  { len := 4, startRect := ⟨5, 0, 10, 10⟩, endRect := ⟨80, 10, 15, 10⟩ }

def c4elem : Skeleton2.Elem :=
  { tag := "div", rect := ⟨0, 0, 100, 20⟩, childNodesLen := 1, childElemCount := 0,
    textNodes := [c4tn], lineHeight := 10 }

/-- An element with an explicit `data-sk-sy="1"` override and explicit
`data-sk-t="text"` decoration kind. -/
def c5elem : Skeleton.Elem :=
  { tag := "div", dataset := { skT := some "text", skSy := some "1" }, rect := ⟨0, 0, 100, 20⟩ }

/-- A tracked map entry: saved styles and two created skeleton nodes. -/
def c7entry : Skeleton.SkEntry :=
  { opacity := "0.9", visibility := "visible", skeletons := [7, 8] }

/-- An enabled engine state: two decorations attached and tracked under
element `2`, all watchers connected. -/
def c7state : Skeleton.EngineState where
  styles := fun _ => {}
  attached := [7, 8]
  skeletonElements := [(2, c7entry)]
  skeletonObserverConnected := true
  enabledObserverConnected := true
  removedObserverConnected := true

/-- C9: for every created skeleton decoration node and every resolved option
set, the final z-index style of the node is "1": `createSkeleton` assigns
`options.skZ` to the z-index style and then unconditionally overwrites it
with "1", so the `skZ` per-element override never affects the rendered
decoration. -/
theorem c9_zindex_always_one (options : Skeleton.SkeletonOptions)
    (skeletonRect elementRect containerRect : Rect) (debug : Bool) :
    (Skeleton.createSkeleton options skeletonRect elementRect containerRect debug).zIndex
      = "1" := by
  cases debug <;> rfl

/-- C8: every decoration node that `createSkeleton` builds carries the
opt-out marker `data-sk-t="none"`, and any element carrying that marker
matches the exclusion conditions of the participation selector whatever its
ancestors are; hence previously created decoration nodes are never in the
candidate set of a recomputation, and no decoration is generated for
another decoration. -/
theorem c8_decoration_never_candidate (options : Skeleton.SkeletonOptions)
    (skeletonRect elementRect containerRect : Rect) (debug : Bool)
    (id : String) (implicitNone implicitType : List String)
    (anc : List Skeleton.Elem) (e : Skeleton.Elem)
    (h : e.dataset.skT
      = (Skeleton.createSkeleton options skeletonRect elementRect containerRect debug).datasetSkT) :
    (Skeleton.createSkeleton options skeletonRect elementRect containerRect debug).datasetSkT
        = some "none" ∧
    Skeleton.excluded id implicitNone implicitType anc e = true := by
  have hds : (Skeleton.createSkeleton options skeletonRect elementRect containerRect
      debug).datasetSkT = some "none" := by cases debug <;> rfl
  rw [hds] at h
  exact ⟨hds, by simp [Skeleton.excluded, h]⟩

/-- C8 witness: a decoration node created for a plain options record is
marked "none" and is excluded by the selector below an arbitrary root. -/
theorem c8_witness :
    (Skeleton.createSkeleton {} ⟨0, 0, 10, 10⟩ ⟨0, 0, 10, 10⟩ ⟨0, 0, 20, 20⟩ false).datasetSkT
        = some "none" ∧
    Skeleton.excluded "default" Skeleton.implicitHide Skeleton.implicitShow []
      { tag := "div", dataset := { skT := some "none" }, rect := ⟨0, 0, 10, 10⟩ } = true :=
  c8_decoration_never_candidate {} ⟨0, 0, 10, 10⟩ ⟨0, 0, 10, 10⟩ ⟨0, 0, 20, 20⟩ false
    "default" Skeleton.implicitHide Skeleton.implicitShow []
    { tag := "div", dataset := { skT := some "none" }, rect := ⟨0, 0, 10, 10⟩ } rfl

/-- C10: in the overlay engine, `eject` on an element whose `data-ov`
attribute equals "true", or that has no registered decoration, leaves the
whole state unchanged: the decorations map, the resize-observer
subscriptions and the decoration nodes in the DOM. -/
theorem c10_eject_leaves_state (s : Overlay.OverlayState) (e : Overlay.OvElem)
    (h : e.ov = some "true" ∨ s.decorations.find? (fun p => p.1 = e.id) = none) :
    Overlay.eject s e = s := by
  unfold Overlay.eject
  rcases h with h | h
  · cases hf : s.decorations.find? fun p => p.1 = e.id with
    | none => simp [hf]
    | some d => simp [hf, h]
  · simp [h]

/-- C10 witness: ejecting an element that still requests an overlay leaves
a concrete state untouched. -/
theorem c10_witness :
    Overlay.eject { decorations := [(1, 10)], observed := [1], domDecorations := [10] }
        { id := 1, ov := some "true" }
      = { decorations := [(1, 10)], observed := [1], domDecorations := [10] } :=
  c10_eject_leaves_state _ _ (Or.inl rfl)

/-- C3: per-element option resolution is the field-by-field shallow merge of
global defaults, then tag-keyed defaults, then the dataset markers of the
element: an explicit dataset field always wins, a tag default wins when the
dataset field is absent, and the global default is used when both are
absent. -/
theorem c3_option_precedence (e : Skeleton.Elem) (f : Skeleton.Field) :
    (∀ v, Skeleton.getField e.dataset f = some v →
      Skeleton.getField (Skeleton.resolveOptions e) f = some v) ∧
    (∀ v, Skeleton.getField e.dataset f = none →
      Skeleton.getField (Skeleton.elementsConfig e.tag) f = some v →
      Skeleton.getField (Skeleton.resolveOptions e) f = some v) ∧
    (Skeleton.getField e.dataset f = none →
      Skeleton.getField (Skeleton.elementsConfig e.tag) f = none →
      Skeleton.getField (Skeleton.resolveOptions e) f = Skeleton.getField Skeleton.defaults f) := by
  cases f <;>
    exact ⟨fun v hv => by
        simp only [Skeleton.getField] at hv
        simp [Skeleton.resolveOptions, Skeleton.mergeOptions, Skeleton.getField,
          Option.orElse, hv],
      fun v hd ht => by
        simp only [Skeleton.getField] at hd ht
        simp [Skeleton.resolveOptions, Skeleton.mergeOptions, Skeleton.getField,
          Option.orElse, hd, ht],
      fun hd ht => by
        simp only [Skeleton.getField] at hd ht
        simp [Skeleton.resolveOptions, Skeleton.mergeOptions, Skeleton.getField,
          Option.orElse, hd, ht]⟩

/-- C3 witness: on an `img` with marker `skR="xl"`, resolution yields the
tag default `skT="round"` together with the element marker `skR="xl"`,
overriding the global default `skR="m"`. -/
theorem c3_witness :
    Skeleton.getField (Skeleton.resolveOptions c3elem) .skR = some "xl" ∧
    Skeleton.getField (Skeleton.resolveOptions c3elem) .skT = some "round" :=
  ⟨(c3_option_precedence c3elem .skR).1 "xl" rfl,
   (c3_option_precedence c3elem .skT).2.1 "round" rfl rfl⟩

/-- C6: an element with zero measured width or height produces no
placeholder rectangles (`computePositions` returns nothing, a normal
"nothing to decorate" outcome rather than an error) and is never part of
the materialized decoration set, whatever its other properties are. -/
theorem c6_zero_size_guard (e : Skeleton.Elem) (cands : List Skeleton.Elem)
    (h : e.rect.width = 0 ∨ e.rect.height = 0) :
    (∀ options, Skeleton.computePositions e options = none) ∧
    ∀ p ∈ Skeleton.materialized cands, p.1 ≠ e := by
  have hcp : ∀ options, Skeleton.computePositions e options = none := by
    intro options
    unfold Skeleton.computePositions
    rcases h with h | h <;> simp [h]
  refine ⟨hcp, ?_⟩
  intro p hp hpe
  rcases List.mem_filterMap.mp hp with ⟨a, _, hfa⟩
  cases hcpa : Skeleton.computePositions a (Skeleton.resolveOptions a) with
  | none => rw [hcpa] at hfa; simp at hfa
  | some ps =>
    rw [hcpa] at hfa
    by_cases hps : ps.isEmpty
    · simp [hps] at hfa
    · simp [hps] at hfa
      rw [← hfa] at hpe
      simp at hpe
      rw [hpe, hcp] at hcpa
      exact Option.noConfusion hcpa

/-- C6 witness: a custom-tag element with zero width yields no rectangles
and is dropped from the materialized set of a candidate list containing it. -/
theorem c6_witness :
    (∀ options,
      Skeleton.computePositions { tag := "x-card", rect := ⟨0, 0, 0, 40⟩ } options = none) ∧
    ∀ p ∈ Skeleton.materialized [{ tag := "x-card", rect := ⟨0, 0, 0, 40⟩ }],
      p.1 ≠ { tag := "x-card", rect := ⟨0, 0, 0, 40⟩ } :=
  c6_zero_size_guard { tag := "x-card", rect := ⟨0, 0, 0, 40⟩ }
    [{ tag := "x-card", rect := ⟨0, 0, 0, 40⟩ }] (Or.inl rfl)

/-- C1 (counterexample): in the default configuration, a marker-less `img`
child of an element explicitly marked `data-sk-t="none"` is NOT excluded by
the participation selector, and it IS added to the materialized decoration
set with a full-box rectangle — the claim says the filter excludes it and
the engine produces no rectangles for it. -/
theorem c1_cascade_counterexample :
    c1parentElem.dataset.skT = some "none" ∧
    c1childElem.dataset.skT = none ∧
    Skeleton.excluded "default" Skeleton.implicitHide Skeleton.implicitShow
      [c1parentElem] c1childElem = false ∧
    Skeleton.materialized (Skeleton.candidatesOf "default" Skeleton.implicitHide
        Skeleton.implicitShow c1rootElem c1descendants)
      = [(c1childElem, [⟨0, 0, 50, 50⟩])] := by
  refine ⟨rfl, rfl, by decide, by decide⟩

/-- C1 (amended): an element explicitly marked "none" is itself excluded by
the participation filter, whatever its ancestors are; but the opt-out does
not cascade: a descendant of a "none"-marked parent that carries no marker
of its own (and is hit by no other exclusion condition) stays a candidate,
and when its tag is `img` with no own markers and nonzero size it is
decorated with a single full-box rectangle. -/
theorem c1_optout_no_cascade (id : String) (implicitNone implicitType : List String) :
    (∀ (anc : List Skeleton.Elem) (e : Skeleton.Elem), e.dataset.skT = some "none" →
      Skeleton.excluded id implicitNone implicitType anc e = true) ∧
    (∀ p e : Skeleton.Elem, p.dataset.skT = some "none" → p.dataset.skId = none →
      e.dataset.skT = none → e.dataset.skId = none → implicitNone.contains e.tag = false →
      Skeleton.excluded id implicitNone implicitType [p] e = false) ∧
    (∀ e : Skeleton.Elem, e.tag = "img" → e.dataset = {} →
      e.rect.width ≠ 0 → e.rect.height ≠ 0 →
      Skeleton.computePositions e (Skeleton.resolveOptions e)
        = some [⟨0, 0, e.rect.width, e.rect.height⟩]) := by
  refine ⟨fun anc e h => by simp [Skeleton.excluded, h], ?_, ?_⟩
  · intro p e hpT hpId heT heId htag
    simp [Skeleton.excluded, hpT, hpId, heT, heId, htag]
    simpa using htag
  · intro e htag hds hw hh
    have hopt : Skeleton.resolveOptions e
        = { skT := some "round", skR := some "m", skTT := some "trim", skO := some "center",
            skSx := some "1", skSy := some "1", skTx := some "0px", skTy := some "0px" } := by
      simp only [Skeleton.resolveOptions, htag, hds]
      rfl
    rw [hopt]
    unfold Skeleton.computePositions
    simp [hw, hh]

/-- C1 witness: instantiation of the amended statement in the default
configuration at a "none"-marked parent with a marker-less `div` child. -/
theorem c1_optout_no_cascade_witness :
    Skeleton.excluded "default" Skeleton.implicitHide Skeleton.implicitShow []
      c1parentElem = true ∧
    Skeleton.excluded "default" Skeleton.implicitHide Skeleton.implicitShow
      [c1parentElem] { tag := "div", rect := ⟨0, 0, 30, 30⟩ } = false ∧
    Skeleton.computePositions c1childElem (Skeleton.resolveOptions c1childElem)
      = some [⟨0, 0, c1childElem.rect.width, c1childElem.rect.height⟩] :=
  ⟨(c1_optout_no_cascade "default" Skeleton.implicitHide Skeleton.implicitShow).1
      [] c1parentElem rfl,
   (c1_optout_no_cascade "default" Skeleton.implicitHide Skeleton.implicitShow).2.1
      c1parentElem { tag := "div", rect := ⟨0, 0, 30, 30⟩ } rfl rfl rfl rfl (by decide),
   (c1_optout_no_cascade "default" Skeleton.implicitHide Skeleton.implicitShow).2.2
      c1childElem rfl rfl (by decide) (by decide)⟩

/-- C2: for a text-like element (kind unset or "text", not custom, probably
text) with a single non-empty text node, the wrapped-line count is
`round((endCharBottom - startCharTop) / lineHeight)`, exactly that many
rectangles are produced when the count is non-negative, and the rectangle
of line `i` sits at vertical offset `top + i * lineHeight`. -/
theorem c2_text_line_rects (e : Skeleton.Elem) (options : Skeleton.SkeletonOptions)
    (tn : Skeleton.TextNode)
    (hw : e.rect.width ≠ 0) (hh : e.rect.height ≠ 0)
    (ht : options.skT = none ∨ options.skT = some "text")
    (hc : Skeleton.isCustomElement e = false)
    (hp : Skeleton.probablyText e = true)
    (htn : e.textNodes = [tn]) (hlen : tn.len ≠ 0)
    (hlines : 0 ≤ Skeleton.lineCount e tn) :
    Skeleton.computePositions e options = some (Skeleton.textNodeRects e tn) ∧
    ((Skeleton.textNodeRects e tn).length : ℤ) = Skeleton.lineCount e tn ∧
    ∀ (i : Nat) (hi : i < (Skeleton.textNodeRects e tn).length),
      ((Skeleton.textNodeRects e tn).get ⟨i, hi⟩).y
        = Skeleton.lineTop e tn + i * e.lineHeight := by
  refine ⟨?_, ?_, ?_⟩
  · unfold Skeleton.computePositions
    rcases ht with ht | ht <;> simp [hw, hh, ht, hc, hp, htn, hlen]
  · simp [Skeleton.textNodeRects, Int.toNat_of_nonneg hlines]
  · intro i hi
    simp [Skeleton.textNodeRects, List.get_eq_getElem, Skeleton.lineRect]

/-- C2 witness: a text node measured as exactly three line heights yields
exactly three rectangles at offsets `top`, `top + lineHeight` and
`top + 2 * lineHeight` (here `top = 0`, `lineHeight = 10`). -/
theorem c2_witness :
    Skeleton.computePositions c2elem {} = some (Skeleton.textNodeRects c2elem c2tn) ∧
    Skeleton.lineCount c2elem c2tn = 3 ∧
    Skeleton.textNodeRects c2elem c2tn
      = [⟨1/10, 0, 100, 10⟩, ⟨1/10, 10, 100, 10⟩, ⟨1/10, 20, 100, 10⟩] := by
  have hlc : Skeleton.lineCount c2elem c2tn = 3 := by
    norm_num [Skeleton.lineCount, jsRound, c2elem, c2tn, Rect.top, Rect.bottom]
  refine ⟨(c2_text_line_rects c2elem {} c2tn (by decide) (by decide) (Or.inl rfl) (by decide)
      (by decide) rfl (by decide) (by rw [hlc]; decide)).1, hlc, ?_⟩
  unfold Skeleton.textNodeRects
  rw [hlc]
  rw [show Int.toNat 3 = 3 from rfl]
  rw [show List.range 3 = [0, 1, 2] from rfl]
  norm_num [c2elem, c2tn, Rect.top, Rect.bottom, Rect.left, Rect.right, Skeleton.lineRect,
    Skeleton.lineTop, Skeleton.lineLeft, Skeleton.lineRight, Rect.mk.injEq]

/-- C4 (counterexample): in the anchor/float revision, under the default
"trim" precision mode, the second line rectangle of a two-line text node
starts at left offset `0.1`, not `0`: the fixed `0.1` left inset is applied
to every line, while the claim states lines after the first start at left
offset `0`. -/
theorem c4_second_line_counterexample :
    Skeleton2.computeDecorations c4elem (Skeleton2.resolveOptions c4elem)
      = some [⟨51/10, 0, 95, 10⟩, ⟨1/10, 10, 95, 10⟩] ∧
    (1/10 : ℚ) ≠ 0 := by
  have hopt : Skeleton2.resolveOptions c4elem
      = { sk := none, skR := some "m", skT := some "trim", skO := some "center",
          skSx := some "1", skSy := some "1", skTx := some "0", skTy := some "0" } := by
    decide
  have hlc : Skeleton2.lineCount c4elem c4tn = 2 := by
    norm_num [Skeleton2.lineCount, jsRound, c4elem, c4tn, Rect.top, Rect.bottom]
  have htr : Skeleton2.textNodeRects c4elem (some "trim") c4tn
      = [⟨51/10, 0, 95, 10⟩, ⟨1/10, 10, 95, 10⟩] := by
    unfold Skeleton2.textNodeRects
    rw [hlc, show Int.toNat 2 = 2 from rfl, show List.range 2 = [0, 1] from rfl]
    norm_num [c4elem, c4tn, Rect.top, Rect.bottom, Rect.left, Rect.right, Skeleton2.lineRect,
      Skeleton2.lineTop, Skeleton2.lineLeft, Skeleton2.lineRight, Rect.mk.injEq]
  refine ⟨?_, by norm_num⟩
  rw [hopt]
  unfold Skeleton2.computeDecorations
  rw [if_neg (by decide), if_neg (by decide), if_neg (by decide)]
  have hfl : (c4elem.textNodes.filter fun tn => tn.len ≠ 0) = [c4tn] := by decide
  rw [hfl]
  simp only [List.flatMap_cons, List.flatMap_nil, List.append_nil]
  rw [htr]

/-- C4 (amended): in the anchor/float revision, for a text-like element with
a single non-empty text node, line rectangles sit at `top + i * lineHeight`;
EVERY line carries the fixed `0.1` left inset, so lines after the first
start at left offset `0.1` (not `0`), and the first line starts at
`0.1 + leftGap`; widths span the full element width, shortened by the
measured leading gap on the first line and trailing gap on the last line
only when the "trim" precision mode is in effect. -/
theorem c4_line_insets_and_trim (e : Skeleton2.Elem) (options : Skeleton2.SkeletonOptions)
    (tn : Skeleton.TextNode)
    (hw : e.rect.width ≠ 0) (hh : e.rect.height ≠ 0)
    (ht : options.sk = none ∨ options.sk = some "text")
    (hc : Skeleton2.isCustomElement e = false)
    (hp : Skeleton2.probablyText e = true)
    (htn : e.textNodes = [tn]) (hlen : tn.len ≠ 0) :
    Skeleton2.computeDecorations e options
      = some (Skeleton2.textNodeRects e options.skT tn) ∧
    (∀ (i : Nat) (hi : i < (Skeleton2.textNodeRects e options.skT tn).length),
      ((Skeleton2.textNodeRects e options.skT tn).get ⟨i, hi⟩).y
        = Skeleton2.lineTop e tn + i * e.lineHeight) ∧
    (∀ (i : Nat) (hi : i < (Skeleton2.textNodeRects e options.skT tn).length), i ≠ 0 →
      ((Skeleton2.textNodeRects e options.skT tn).get ⟨i, hi⟩).x = 1 / 10) ∧
    (∀ hi : 0 < (Skeleton2.textNodeRects e options.skT tn).length,
      ((Skeleton2.textNodeRects e options.skT tn).get ⟨0, hi⟩).x
        = 1 / 10 + Skeleton2.lineLeft e tn) ∧
    (options.skT ≠ some "trim" →
      ∀ (i : Nat) (hi : i < (Skeleton2.textNodeRects e options.skT tn).length),
        ((Skeleton2.textNodeRects e options.skT tn).get ⟨i, hi⟩).width = e.rect.width) ∧
    (options.skT = some "trim" →
      ∀ (i : Nat) (hi : i < (Skeleton2.textNodeRects e options.skT tn).length),
        ((Skeleton2.textNodeRects e options.skT tn).get ⟨i, hi⟩).width
          = e.rect.width - (if i = 0 then Skeleton2.lineLeft e tn else 0)
            - (if (i : ℤ) = Skeleton2.lineCount e tn - 1 then Skeleton2.lineRight e tn
                else 0)) := by
  refine ⟨?_, ?_, ?_, ?_, ?_, ?_⟩
  · unfold Skeleton2.computeDecorations
    rcases ht with ht | ht <;> simp [hw, hh, ht, hc, hp, htn, hlen]
  · intro i hi
    simp [Skeleton2.textNodeRects, List.get_eq_getElem, Skeleton2.lineRect]
  · intro i hi hne
    simp [Skeleton2.textNodeRects, List.get_eq_getElem, Skeleton2.lineRect, hne]
  · intro hi
    simp [Skeleton2.textNodeRects, List.get_eq_getElem, Skeleton2.lineRect]
  · intro htrim i hi
    simp [Skeleton2.textNodeRects, List.get_eq_getElem, Skeleton2.lineRect, htrim]
  · intro htrim i hi
    simp only [Skeleton2.textNodeRects, List.get_eq_getElem, List.getElem_map,
      List.getElem_range, Skeleton2.lineRect, htrim]
    by_cases h0 : i = 0 <;> by_cases hl : (i : ℤ) = Skeleton2.lineCount e tn - 1 <;>
      simp [h0, hl]

/-- C4 witness: instantiation of the amended statement on the concrete
two-line element under the default "trim" mode: the second rectangle has
`x = 0.1`, `y = top + lineHeight`, and both rectangles are trimmed. -/
theorem c4_witness :
    Skeleton2.computeDecorations c4elem (Skeleton2.resolveOptions c4elem)
      = some (Skeleton2.textNodeRects c4elem (Skeleton2.resolveOptions c4elem).skT c4tn) ∧
    ((hi : 1 < (Skeleton2.textNodeRects c4elem
          (Skeleton2.resolveOptions c4elem).skT c4tn).length) →
      ((Skeleton2.textNodeRects c4elem (Skeleton2.resolveOptions c4elem).skT c4tn).get
          ⟨1, hi⟩).x = 1 / 10) := by
  have h := c4_line_insets_and_trim c4elem (Skeleton2.resolveOptions c4elem) c4tn
    (by decide) (by decide) (Or.inl (by decide)) (by decide) (by decide) (by decide)
    (by decide)
  exact ⟨h.1, fun hi => h.2.2.1 1 hi (by decide)⟩

/-- C5 (counterexample): an element carrying the explicit scale-Y override
`data-sk-sy="1"` on a text decoration does not get its explicit value
applied: the engine cannot distinguish an explicit "1" from the merged
default "1" and applies the 0.5 text default instead, so the rendered scale
is "1 0.5" and not "1 1" as the claim requires. -/
theorem c5_explicit_sy_counterexample :
    c5elem.dataset.skSy = some "1" ∧
    (Skeleton.resolveOptions c5elem).skSy = some "1" ∧
    Skeleton.appliedSkSy (Skeleton.resolveOptions c5elem)
      (Skeleton.inferredKind (Skeleton.resolveOptions c5elem) ⟨0, 0, 100, 20⟩)
        = some "0.5" ∧
    (Skeleton.createSkeleton (Skeleton.resolveOptions c5elem)
      ⟨0, 0, 100, 20⟩ ⟨0, 0, 100, 20⟩ ⟨0, 0, 200, 200⟩ false).scale = "1 0.5" ∧
    ("1 0.5" : String) ≠ "1 1" := by
  refine ⟨rfl, by decide, by decide, by decide, by decide⟩

/-- C5 (amended): when the decoration kind is unset it is inferred as "text"
for a rect with left offset > 0 and "round" otherwise; the applied Y-scale
is the explicit `skSy` value whenever that value differs from "1", and
otherwise (explicit or defaulted "1") it is 0.5 for text decorations and
1.0 for the rest; the decoration node renders the scale as
`"{skSx} {skSy}"`. -/
theorem c5_kind_inference_and_scale (options : Skeleton.SkeletonOptions)
    (skeletonRect elementRect containerRect : Rect) (debug : Bool) :
    (options.skT = none → Skeleton.inferredKind options skeletonRect
        = (if skeletonRect.left > 0 then "text" else "round")) ∧
    (∀ k, options.skT = some k → Skeleton.inferredKind options skeletonRect = k) ∧
    (∀ v, options.skSy = some v → v ≠ "1" →
      Skeleton.appliedSkSy options (Skeleton.inferredKind options skeletonRect) = some v) ∧
    (options.skSy = some "1" →
      Skeleton.appliedSkSy options (Skeleton.inferredKind options skeletonRect)
        = some (if Skeleton.inferredKind options skeletonRect = "text" then "0.5" else "1")) ∧
    (Skeleton.createSkeleton options skeletonRect elementRect containerRect debug).scale
      = options.skSx.getD "undefined" ++ " "
        ++ (Skeleton.appliedSkSy options (Skeleton.inferredKind options skeletonRect)).getD
            "undefined" := by
  refine ⟨?_, ?_, ?_, ?_, ?_⟩
  · intro h; simp [Skeleton.inferredKind, h]
  · intro k h; simp [Skeleton.inferredKind, h]
  · intro v hv hne; simp [Skeleton.appliedSkSy, hv, hne]
  · intro hv
    simp [Skeleton.appliedSkSy, hv, apply_ite]
  · cases debug <;> rfl

/-- C5 witness: an explicit scale-Y override that differs from "1" is
applied verbatim, and a left-inset rect with unset kind infers "text". -/
theorem c5_witness :
    Skeleton.inferredKind { skSy := some "0.7" } ⟨5, 0, 90, 10⟩
        = (if Rect.left ⟨5, 0, 90, 10⟩ > 0 then "text" else "round") ∧
    Skeleton.appliedSkSy { skSy := some "0.7" }
      (Skeleton.inferredKind { skSy := some "0.7" } ⟨5, 0, 90, 10⟩) = some "0.7" ∧
    (Skeleton.createSkeleton { skSy := some "0.7" }
        ⟨5, 0, 90, 10⟩ ⟨0, 0, 100, 20⟩ ⟨0, 0, 200, 200⟩ false).scale
      = Option.getD none "undefined" ++ " "
        ++ (Skeleton.appliedSkSy { skSy := some "0.7" }
            (Skeleton.inferredKind { skSy := some "0.7" } ⟨5, 0, 90, 10⟩)).getD "undefined" :=
  ⟨(c5_kind_inference_and_scale { skSy := some "0.7" } ⟨5, 0, 90, 10⟩ ⟨0, 0, 100, 20⟩
      ⟨0, 0, 200, 200⟩ false).1 rfl,
   (c5_kind_inference_and_scale { skSy := some "0.7" } ⟨5, 0, 90, 10⟩ ⟨0, 0, 100, 20⟩
      ⟨0, 0, 200, 200⟩ false).2.2.1 "0.7" rfl (by decide),
   (c5_kind_inference_and_scale { skSy := some "0.7" } ⟨5, 0, 90, 10⟩ ⟨0, 0, 100, 20⟩
      ⟨0, 0, 200, 200⟩ false).2.2.2.2⟩

/-- Helper: one entry restoration touches neither the map nor any observer
flag, so neither does the whole `forEach` fold. -/
theorem restore_foldl_flags (l : List (Nat × Skeleton.SkEntry)) (s : Skeleton.EngineState) :
    (l.foldl Skeleton.restoreEntry s).skeletonElements = s.skeletonElements ∧
    (l.foldl Skeleton.restoreEntry s).skeletonObserverConnected
      = s.skeletonObserverConnected ∧
    (l.foldl Skeleton.restoreEntry s).enabledObserverConnected
      = s.enabledObserverConnected ∧
    (l.foldl Skeleton.restoreEntry s).removedObserverConnected
      = s.removedObserverConnected := by
  induction l generalizing s with
  | nil => exact ⟨rfl, rfl, rfl, rfl⟩
  | cons q l ih => exact ih (Skeleton.restoreEntry s q)

/-- Helper: restoring entries never touches the `position` style of any
element. -/
theorem restore_foldl_position (l : List (Nat × Skeleton.SkEntry)) (s : Skeleton.EngineState)
    (n : Nat) :
    ((l.foldl Skeleton.restoreEntry s).styles n).position = (s.styles n).position := by
  induction l generalizing s with
  | nil => rfl
  | cons q l ih =>
    rw [List.foldl_cons, ih]
    unfold Skeleton.restoreEntry Skeleton.writeOpacityVisibility
    by_cases h : n = q.1 <;> simp [h]

/-- Helper: a decoration node survives the restoration fold iff it was
attached before and belongs to no processed entry. -/
theorem restore_foldl_attached (l : List (Nat × Skeleton.SkEntry)) (s : Skeleton.EngineState)
    (n : Nat) :
    n ∈ (l.foldl Skeleton.restoreEntry s).attached ↔
      n ∈ s.attached ∧ ∀ q ∈ l, n ∉ q.2.skeletons := by
  induction l generalizing s with
  | nil => simp
  | cons q l ih =>
    rw [List.foldl_cons, ih]
    unfold Skeleton.restoreEntry
    simp [List.mem_filter, and_assoc]

/-- Helper: the fold leaves the styles of elements outside the processed
keys untouched. -/
theorem restore_foldl_styles_not_mem (l : List (Nat × Skeleton.SkEntry))
    (s : Skeleton.EngineState) (n : Nat) :
    (∀ q ∈ l, q.1 ≠ n) → (l.foldl Skeleton.restoreEntry s).styles n = s.styles n := by
  induction l generalizing s with
  | nil => intro _; rfl
  | cons q l ih =>
    intro h
    rw [List.foldl_cons, ih _ fun r hr => h r (List.mem_cons_of_mem _ hr)]
    have hne : n ≠ q.1 := fun hn => h q (List.mem_cons_self _ _) hn.symm
    unfold Skeleton.restoreEntry Skeleton.writeOpacityVisibility
    simp [hne]

/-- Helper: with pairwise-distinct keys, the fold restores exactly the saved
opacity and visibility of every tracked element. -/
theorem restore_foldl_styles_mem (l : List (Nat × Skeleton.SkEntry))
    (s : Skeleton.EngineState) (k : Nat) (en : Skeleton.SkEntry) :
    (k, en) ∈ l → (l.map Prod.fst).Nodup →
    ((l.foldl Skeleton.restoreEntry s).styles k).opacity = en.opacity ∧
    ((l.foldl Skeleton.restoreEntry s).styles k).visibility = en.visibility := by
  induction l generalizing s with
  | nil => intro h _; cases h
  | cons q l ih =>
    intro hmem hnd
    rw [List.map_cons, List.nodup_cons] at hnd
    rw [List.foldl_cons]
    rcases List.mem_cons.mp hmem with heq | hmem2
    · have hq1 : q.1 = k := by rw [← heq]
      have hkey : ∀ r ∈ l, r.1 ≠ k := by
        intro r hr hrk
        exact hnd.1 (by rw [hq1, ← hrk]; exact List.mem_map_of_mem Prod.fst hr)
      rw [restore_foldl_styles_not_mem l _ k hkey]
      rw [← heq]
      unfold Skeleton.restoreEntry Skeleton.writeOpacityVisibility
      simp
    · exact ih _ hmem2 hnd.2

/-- Helper: `cleanup` is the identity on a state that is already fully torn
down (empty map, observers disconnected, root position already restored). -/
theorem cleanup_of_torn_down (rootId : Nat) (savedPosition : String)
    (t : Skeleton.EngineState)
    (hm : t.skeletonElements = [])
    (hpos : (t.styles rootId).position = savedPosition)
    (hsk : t.skeletonObserverConnected = false)
    (hen : t.enabledObserverConnected = false)
    (hrm : t.removedObserverConnected = false) :
    Skeleton.cleanup rootId savedPosition t = t := by
  have hstyles : Skeleton.writePosition t.styles rootId savedPosition = t.styles := by
    funext n
    unfold Skeleton.writePosition
    by_cases h : n = rootId
    · subst h; rw [← hpos]; simp
    · simp [h]
  unfold Skeleton.cleanup Skeleton.eject
  simp only [hm, List.foldl_nil]
  refine Skeleton.EngineState.ext ?_ ?_ ?_ ?_ ?_ ?_ <;>
    simp [hstyles, hm, hsk, hen, hrm]

/-- C7: the cleanup function returned by `injectSkeleton` is idempotent —
running it twice gives exactly the state after running it once — and after
one run no decoration nodes remain attached (given that every attached
decoration is tracked by the map, as the engine maintains), the map is
empty, all three watchers are disconnected, and every tracked element has
its saved pre-decoration opacity and visibility restored (keys are unique
as in a JS `Map`); in particular running it on already-torn-down state is a
no-op. -/
theorem c7_cleanup_idempotent (rootId : Nat) (savedPosition : String)
    (s : Skeleton.EngineState)
    (hcover : ∀ n ∈ s.attached, ∃ q ∈ s.skeletonElements, n ∈ q.2.skeletons)
    (hkeys : (s.skeletonElements.map Prod.fst).Nodup) :
    Skeleton.cleanup rootId savedPosition (Skeleton.cleanup rootId savedPosition s)
      = Skeleton.cleanup rootId savedPosition s ∧
    (Skeleton.cleanup rootId savedPosition s).attached = [] ∧
    (Skeleton.cleanup rootId savedPosition s).skeletonElements = [] ∧
    (Skeleton.cleanup rootId savedPosition s).skeletonObserverConnected = false ∧
    (Skeleton.cleanup rootId savedPosition s).enabledObserverConnected = false ∧
    (Skeleton.cleanup rootId savedPosition s).removedObserverConnected = false ∧
    ∀ q ∈ s.skeletonElements,
      ((Skeleton.cleanup rootId savedPosition s).styles q.1).opacity = q.2.opacity ∧
      ((Skeleton.cleanup rootId savedPosition s).styles q.1).visibility = q.2.visibility := by
  have hcl : Skeleton.cleanup rootId savedPosition s
      = { (s.skeletonElements.foldl Skeleton.restoreEntry
            { s with styles := Skeleton.writePosition s.styles rootId savedPosition,
                     skeletonObserverConnected := false,
                     enabledObserverConnected := false,
                     removedObserverConnected := false }) with
          skeletonElements := [] } := rfl
  have hmap : (Skeleton.cleanup rootId savedPosition s).skeletonElements = [] := rfl
  have hpos : ((Skeleton.cleanup rootId savedPosition s).styles rootId).position
      = savedPosition := by
    rw [hcl]
    show ((s.skeletonElements.foldl Skeleton.restoreEntry _).styles rootId).position = _
    rw [restore_foldl_position]
    unfold Skeleton.writePosition
    simp
  have hsk : (Skeleton.cleanup rootId savedPosition s).skeletonObserverConnected = false := by
    rw [hcl]
    exact (restore_foldl_flags _ _).2.1
  have hen : (Skeleton.cleanup rootId savedPosition s).enabledObserverConnected = false := by
    rw [hcl]
    exact (restore_foldl_flags _ _).2.2.1
  have hrm : (Skeleton.cleanup rootId savedPosition s).removedObserverConnected = false := by
    rw [hcl]
    exact (restore_foldl_flags _ _).2.2.2
  refine ⟨cleanup_of_torn_down rootId savedPosition _ hmap hpos hsk hen hrm, ?_, hmap,
    hsk, hen, hrm, ?_⟩
  · rw [hcl]
    rw [List.eq_nil_iff_forall_not_mem]
    intro n hn
    rw [restore_foldl_attached] at hn
    rcases hcover n hn.1 with ⟨q, hq, hqn⟩
    exact hn.2 q hq hqn
  · intro q hq
    rw [hcl]
    exact restore_foldl_styles_mem _ _ q.1 q.2 hq hkeys

/-- C7 witness: on a concrete enabled state with two attached decorations
tracked under one element, cleanup twice equals cleanup once, nothing stays
attached, no watcher stays connected, and the saved styles come back. -/
theorem c7_witness :
    Skeleton.cleanup 0 "static" (Skeleton.cleanup 0 "static" c7state)
      = Skeleton.cleanup 0 "static" c7state ∧
    (Skeleton.cleanup 0 "static" c7state).attached = [] ∧
    (Skeleton.cleanup 0 "static" c7state).enabledObserverConnected = false ∧
    ((Skeleton.cleanup 0 "static" c7state).styles 2).opacity = "0.9" := by
  have h := c7_cleanup_idempotent 0 "static" c7state (by decide) (by decide)
  exact ⟨h.1, h.2.1, h.2.2.2.2.1,
    (h.2.2.2.2.2.2 (2, c7entry) (by decide)).1⟩
